import Mathlib

/-!
# OpenStreamRotatorWeb — verification of the viewer-side WebSocket client

Shallow embedding of the dashboard frontend's WebSocket client logic:

* `InstanceWsContext` — the shared provider in
  `frontend/src/lib/instance-ws-context.tsx` (`connect` with its
  `onopen`/`onmessage`/`onclose` handlers, the reconnect timer callback,
  `sendCommand`, and the `instanceId` effect);
* `UseInstanceWs` — the standalone hook in
  `frontend/src/hooks/use-instance-ws.ts`;
* `DashboardPage` — the live-state / DB-snapshot merge in
  `frontend/src/app/dashboard/page.tsx`;
* `RelayServer` — the relay server's offline layering, modelled from the
  spec (the backend relay sources are not part of this tree).

JavaScript values flowing through the client are modelled by a small `Json`
type; `undefined` and `null` are both modelled as "absent" (`Option.none`)
where the distinction is irrelevant to the behaviour under study, and JSON
numbers are modelled as integers (no arithmetic is performed on them).
-/

-- ── JSON value model ─────────────────────────────────────────────────────

inductive Json : Type where
  | null : Json
  | bool (b : Bool) : Json
  | num (n : Int) : Json
  | str (s : String) : Json
  | arr (elems : List Json) : Json
  | obj (fields : List (String × Json)) : Json

/-- First-match lookup among the key/value pairs of a JSON object. -/
def lookupField : List (String × Json) → String → Option Json
  | [], _ => none
  | (k, v) :: rest, key => if k = key then some v else lookupField rest key

/-- `j.getField k` models the JavaScript property access `j.k` (with
optional-chaining semantics: accessing a property of a non-object yields
`undefined`, modelled as `none`). -/
def Json.getField : Json → String → Option Json
  | Json.obj fields, key => lookupField fields key
  | _, _ => none

/-- `Json.setField j k v` models the object spread `{...j, k: v}`. -/
def Json.setField : Json → String → Json → Json
  | Json.obj fields, key, v =>
      Json.obj ((fields.filter (fun p => p.1 ≠ key)) ++ [(key, v)])
  | _, key, v => Json.obj [(key, v)]

/-- JavaScript truthiness of a JSON value. -/
def jsTruthy : Json → Bool
  | Json.null => false
  | Json.bool b => b
  | Json.num n => n ≠ 0
  | Json.str s => s ≠ ""
  | Json.arr _ => true
  | Json.obj _ => true

/-- `jsGet st k` models `st?.k` where `st` itself may be `undefined`. -/
def jsGet (st : Option Json) (k : String) : Option Json :=
  st.bind (fun j => j.getField k)

/-- `jsNullishOr a b` models the JavaScript nullish coalescing `a ?? b`
(`a` wins unless it is `undefined`/`null`). -/
def jsNullishOr (a b : Option Json) : Option Json :=
  match a with
  | none => b
  | some Json.null => b
  | some v => some v

/-- `jsNullishGetD a d` models `a ?? d` for a literal default `d`. -/
def jsNullishGetD (a : Option Json) (d : Json) : Json :=
  match a with
  | none => d
  | some Json.null => d
  | some v => v

/-- The `{ type, data }` message envelope used on the wire. -/
def mkFrame (ty : String) (d : Json) : Json :=
  Json.obj [("type", Json.str ty), ("data", d)]

/-- `msg.data?.delivered ?? false` — the delivered flag read out of a
`command_ack` frame (this exact expression appears in both the provider's
and the hook's message handler). -/
def ackDelivered (msgData : Option Json) : Json :=
  match msgData.bind (fun d => Json.getField d "delivered") with
  | some Json.null => Json.bool false
  | some v => v
  | none => Json.bool false

-- ── WebSocket handle model ───────────────────────────────────────────────

/-- Browser WebSocket ready states (`WebSocket.CONNECTING`/`OPEN`/…). -/
inductive ReadyState : Type where
  | CONNECTING : ReadyState
  | OPEN : ReadyState
  | CLOSING : ReadyState
  | CLOSED : ReadyState
deriving DecidableEq

/-- A WebSocket object as far as the client logic observes it: its ready
state, and whether the client's `onclose` handler is still attached (the
`instanceId` effect detaches it before closing an old socket). -/
structure Socket : Type where
  readyState : ReadyState
  onCloseAttached : Bool
deriving DecidableEq

namespace InstanceWsContext

-- ── Reconnect settings (instance-ws-context.tsx) ─────────────────────────

def RECONNECT_BASE_MS : Nat := 2000
def RECONNECT_MAX_MS : Nat := 30000

/-- The client-visible state of one `InstanceWsProvider`: the React state
cells (`state`, `logs`, `connected`, `lastAck`) together with the refs
(`lastActionRef`, `reconnectDelay`, `reconnectTimer`, `wsRef`).
`pendingReconnect` is `some d` when a reconnect timer with delay `d` is
pending. Log entries are held newest-first, exactly as displayed. -/
structure ClientModel : Type where
  state : Option Json
  logs : List Json
  connected : Bool
  lastAck : Option (Json × String)
  lastAction : String
  reconnectDelay : Nat
  pendingReconnect : Option Nat
  wsRef : Option Socket

/-- Initial provider state: `useState` initialisers plus the refs'
initial values (`lastActionRef = ""`, `reconnectDelay = RECONNECT_BASE_MS`). -/
def initClient : ClientModel :=
  { state := none
    logs := []
    connected := false
    lastAck := none
    lastAction := ""
    reconnectDelay := RECONNECT_BASE_MS
    pendingReconnect := none
    wsRef := none }

/-- `connect(id)`: `connectDashboardWs` returns a fresh socket when a token
is in localStorage and `null` otherwise, in which case the function returns
without touching `wsRef`. A fresh socket starts in `CONNECTING` with the
handlers attached. -/
def connectWs (c : ClientModel) (_id : String) (hasToken : Bool) : ClientModel :=
  if hasToken then
    { c with wsRef := some { readyState := ReadyState.CONNECTING, onCloseAttached := true } }
  else c

/-- `ws.onopen`: the browser has moved the socket to `OPEN`; the handler
sets `connected` and resets the backoff delay to the base. -/
def onopen (c : ClientModel) : ClientModel :=
  { c with
      connected := true
      reconnectDelay := RECONNECT_BASE_MS
      wsRef := c.wsRef.map (fun s => { s with readyState := ReadyState.OPEN }) }

/-- `ws.onmessage`: `raw = none` models a frame whose payload failed
`JSON.parse` (the `catch` swallows it). A missing `data` field pushed as a
log entry is modelled as `Json.null` (undefined and null are identified). -/
def onmessage (c : ClientModel) (raw : Option Json) : ClientModel :=
  match raw with
  | none => c
  | some msg =>
    match Json.getField msg "type" with
    | some (Json.str t) =>
      if t = "state" then
        { c with state := Json.getField msg "data" }
      else if t = "log" then
        { c with logs := List.take 1000 (((Json.getField msg "data").getD Json.null) :: c.logs) }
      else if t = "log_history" then
        let history : List Json :=
          match Json.getField msg "data" with
          | some (Json.arr xs) => xs
          | _ => []
        { c with logs := List.take 1000 (c.logs ++ history.reverse) }
      else if t = "command_ack" then
        { c with lastAck := some (ackDelivered (Json.getField msg "data"), c.lastAction) }
      else
        c
    | _ => c

/-- `ws.onclose(e)`: drop `connected` and the socket ref; unless the close
code is an auth/permission rejection (4001/4003/4004), schedule one
reconnect after the current backoff delay. -/
def onclose (c : ClientModel) (code : Nat) : ClientModel :=
  let c1 := { c with connected := false, wsRef := none }
  if code ≠ 4001 ∧ code ≠ 4003 ∧ code ≠ 4004 then
    { c1 with pendingReconnect := some c1.reconnectDelay }
  else c1

/-- The `setTimeout` callback scheduled by `onclose`: double the backoff
delay (capped at `RECONNECT_MAX_MS`), then call `connect`. -/
def reconnectTimerFire (c : ClientModel) (id : String) (hasToken : Bool) : ClientModel :=
  match c.pendingReconnect with
  | some delay =>
      connectWs
        { c with
            pendingReconnect := none
            reconnectDelay := min (delay * 2) RECONNECT_MAX_MS }
        id hasToken
  | none => c

/-- `sendCommand(action, payload)`: a no-op unless the socket exists and is
`OPEN`; otherwise record the action in the single last-action slot and send
the `command` frame. The second component is the frame sent, if any. -/
def sendCommand (c : ClientModel) (action : String) (payload : Json) :
    ClientModel × Option Json :=
  match c.wsRef with
  | some s =>
      if s.readyState = ReadyState.OPEN then
        ({ c with lastAction := action },
          some (Json.obj
            [("type", Json.str "command"),
             ("data", Json.obj [("action", Json.str action), ("payload", payload)])]))
      else (c, none)
  | none => (c, none)

/-- The body of the `useEffect` keyed on `instanceId`: cancel any pending
reconnect timer, close any existing socket with its `onclose` handler
detached, clear all state cached from the previous instance, then (if a new
instance id is present) reset the backoff and connect. The second component
is the old socket (after detachment and `close()`), if there was one. -/
def instanceIdEffect (c : ClientModel) (instanceId : Option String) (hasToken : Bool) :
    ClientModel × Option Socket :=
  let c1 := { c with pendingReconnect := none }
  let oldWs := c1.wsRef.map
    (fun s => { s with onCloseAttached := false, readyState := ReadyState.CLOSING })
  let c2 := { c1 with wsRef := none }
  let c3 := { c2 with state := none, logs := [], connected := false, lastAck := none }
  let c4 :=
    match instanceId with
    | some id => connectWs { c3 with reconnectDelay := RECONNECT_BASE_MS } id hasToken
    | none => c3
  (c4, oldWs)

/-- A close event on a socket runs that socket's `onclose` handler only if
it is still attached; a detached handler means the event has no effect on
the client model. -/
def socketCloseEffect (c : ClientModel) (sock : Socket) (code : Nat) : ClientModel :=
  if sock.onCloseAttached then onclose c code else c

/-- One observable transition of the provider's client model. -/
inductive ClientStep : ClientModel → ClientModel → Prop where
  | opened (c : ClientModel) : ClientStep c (onopen c)
  | message (c : ClientModel) (raw : Option Json) : ClientStep c (onmessage c raw)
  | closing (c : ClientModel) (code : Nat) : ClientStep c (onclose c code)
  | timer (c : ClientModel) (id : String) (tok : Bool) :
      ClientStep c (reconnectTimerFire c id tok)
  | send (c : ClientModel) (a : String) (p : Json) :
      ClientStep c (sendCommand c a p).1
  | switch (c : ClientModel) (instId : Option String) (tok : Bool) :
      ClientStep c (instanceIdEffect c instId tok).1

/-- States of the provider reachable from the initial state. -/
inductive ReachableClient : ClientModel → Prop where
  | init : ReachableClient initClient
  | step {c c' : ClientModel} : ReachableClient c → ClientStep c c' → ReachableClient c'

end InstanceWsContext

namespace UseInstanceWs

/-- Client state of the standalone `useInstanceWs` hook
(`frontend/src/hooks/use-instance-ws.ts`): the same React state cells as
the provider, but no reconnect machinery and a log capacity of 500. -/
structure HookModel : Type where
  state : Option Json
  logs : List Json
  connected : Bool
  lastAck : Option (Json × String)
  lastAction : String
  wsRef : Option Socket

/-- Initial hook state (`useState` initialisers, `lastActionRef = ""`). -/
def initHook : HookModel :=
  { state := none
    logs := []
    connected := false
    lastAck := none
    lastAction := ""
    wsRef := none }

/-- The hook's effect body: `connectDashboardWs` yields a fresh socket when
a token exists, else the effect returns without touching `wsRef`. -/
def connectWs (h : HookModel) (_id : String) (hasToken : Bool) : HookModel :=
  if hasToken then
    { h with wsRef := some { readyState := ReadyState.CONNECTING, onCloseAttached := true } }
  else h

/-- `ws.onopen` of the hook. -/
def onopen (h : HookModel) : HookModel :=
  { h with
      connected := true
      wsRef := h.wsRef.map (fun s => { s with readyState := ReadyState.OPEN }) }

/-- `ws.onmessage` of the hook: like the provider's but with capacity 500
and no `log_history` branch. `raw = none` models a `JSON.parse` failure. -/
def onmessage (h : HookModel) (raw : Option Json) : HookModel :=
  match raw with
  | none => h
  | some msg =>
    match Json.getField msg "type" with
    | some (Json.str t) =>
      if t = "state" then
        { h with state := Json.getField msg "data" }
      else if t = "log" then
        { h with logs := List.take 500 (((Json.getField msg "data").getD Json.null) :: h.logs) }
      else if t = "command_ack" then
        { h with lastAck := some (ackDelivered (Json.getField msg "data"), h.lastAction) }
      else
        h
    | _ => h

/-- `ws.onclose` of the hook: no reconnection logic at all. -/
def onclose (h : HookModel) (_code : Nat) : HookModel :=
  { h with connected := false, wsRef := none }

/-- `sendCommand` of the hook — identical guard to the provider's. -/
def sendCommand (h : HookModel) (action : String) (payload : Json) :
    HookModel × Option Json :=
  match h.wsRef with
  | some s =>
      if s.readyState = ReadyState.OPEN then
        ({ h with lastAction := action },
          some (Json.obj
            [("type", Json.str "command"),
             ("data", Json.obj [("action", Json.str action), ("payload", payload)])]))
      else (h, none)
  | none => (h, none)

/-- One observable transition of the hook's client model. -/
inductive HookStep : HookModel → HookModel → Prop where
  | connect (h : HookModel) (id : String) (tok : Bool) : HookStep h (connectWs h id tok)
  | opened (h : HookModel) : HookStep h (onopen h)
  | message (h : HookModel) (raw : Option Json) : HookStep h (onmessage h raw)
  | closing (h : HookModel) (code : Nat) : HookStep h (onclose h code)
  | send (h : HookModel) (a : String) (p : Json) : HookStep h (sendCommand h a p).1

/-- States of the hook reachable from the initial state. -/
inductive ReachableHook : HookModel → Prop where
  | init : ReachableHook initHook
  | step {h h' : HookModel} : ReachableHook h → HookStep h h' → ReachableHook h'

end UseInstanceWs

namespace DashboardPage

/-- The DB-snapshot fields of an `Instance` record (`frontend/src/lib/api.ts`)
that the dashboard merge reads; identification/ownership fields are omitted
as the merge never touches them. -/
structure Instance : Type where
  status : String
  current_video : Option String
  current_playlist : Option String
  current_category : Option String
  obs_connected : Bool
  uptime_seconds : Int

/-- `null` / string conversion for nullable DB text columns. -/
def optStrJson : Option String → Json
  | none => Json.null
  | some s => Json.str s

/-- `state?.status === "online" || instance?.status === "online"`. -/
def isOnline (state : Option Json) (inst : Option Instance) : Bool :=
  (match jsGet state "status" with
   | some (Json.str s) => s = "online"
   | _ => false)
  || (match inst with
      | some i => i.status = "online"
      | none => false)

/-- `state?.status === "paused" || instance?.status === "paused"`. -/
def isPaused (state : Option Json) (inst : Option Instance) : Bool :=
  (match jsGet state "status" with
   | some (Json.str s) => s = "paused"
   | _ => false)
  || (match inst with
      | some i => i.status = "paused"
      | none => false)

/-- `state?.current_video ?? instance?.current_video ?? "—"`. -/
def currentVideo (state : Option Json) (inst : Option Instance) : Json :=
  jsNullishGetD
    (jsNullishOr (jsGet state "current_video")
      (inst.map (fun i => optStrJson i.current_video)))
    (Json.str "—")

/-- `state?.current_playlist ?? instance?.current_playlist ?? "—"`. -/
def currentPlaylist (state : Option Json) (inst : Option Instance) : Json :=
  jsNullishGetD
    (jsNullishOr (jsGet state "current_playlist")
      (inst.map (fun i => optStrJson i.current_playlist)))
    (Json.str "—")

/-- The `currentCategory` IIFE: raw value from state or DB snapshot; falsy →
`"—"`; a string is shown as-is; otherwise `raw.twitch || raw.kick || "—"`. -/
def currentCategory (state : Option Json) (inst : Option Instance) : Json :=
  let raw := jsNullishOr (jsGet state "current_category")
    (inst.map (fun i => optStrJson i.current_category))
  match raw with
  | none => Json.str "—"
  | some r =>
    if jsTruthy r = false then Json.str "—"
    else
      match r with
      | Json.str s => Json.str s
      | _ =>
        let tw := (r.getField "twitch").getD Json.null
        if jsTruthy tw then tw
        else
          let k := (r.getField "kick").getD Json.null
          if jsTruthy k then k else Json.str "—"

/-- `state?.obs_connected ?? instance?.obs_connected ?? false`. -/
def obsConnected (state : Option Json) (inst : Option Instance) : Json :=
  jsNullishGetD
    (jsNullishOr (jsGet state "obs_connected")
      (inst.map (fun i => Json.bool i.obs_connected)))
    (Json.bool false)

/-- `state?.uptime_seconds ?? instance?.uptime_seconds ?? 0`. -/
def uptimeSeconds (state : Option Json) (inst : Option Instance) : Json :=
  jsNullishGetD
    (jsNullishOr (jsGet state "uptime_seconds")
      (inst.map (fun i => Json.num i.uptime_seconds)))
    (Json.num 0)

end DashboardPage

namespace RelayServer

/-- Modelled from the spec: the relay server's State Cache and Connection
Lifecycle Manager are not among the sources in this tree (only the frontend
is). Per §3/§4.1, the cached state snapshot survives an upstream disconnect,
and "the synthesized `offline` status is layered on top when no upstream is
attached" — the snapshot a viewer receives while no upstream exists is the
cached snapshot with its status field overwritten to `offline`. -/
def layerOfflineStatus (snap : Json) : Json :=
  Json.setField snap "status" (Json.str "offline")

/-- Modelled from the spec: on disconnect of the upstream, the Lifecycle
Manager marks the instance record's status `offline`, leaving the
denormalized display-cache fields intact (§4.1: "mark instance status
`offline`, record last-seen = now, leave the Cached State Snapshot … intact"). -/
def markOffline (inst : DashboardPage.Instance) : DashboardPage.Instance :=
  { inst with status := "offline" }

end RelayServer

-- ── Concrete example states (used by witnesses below) ────────────────────

/-- A provider state holding data from a previous instance: a cached
snapshot, one log entry, an acknowledgement, a pending reconnect timer and
an open socket. -/
def egBusyClient : InstanceWsContext.ClientModel :=
  { InstanceWsContext.initClient with
      state := some (Json.obj [("status", Json.str "online")])
      logs := [Json.num 2]
      connected := true
      lastAck := some (Json.bool true, "pause")
      lastAction := "pause"
      pendingReconnect := some 8000
      wsRef := some { readyState := ReadyState.OPEN, onCloseAttached := true } }

/-- A provider state with an open socket. -/
def egOpenClient : InstanceWsContext.ClientModel :=
  { InstanceWsContext.initClient with
      wsRef := some { readyState := ReadyState.OPEN, onCloseAttached := true } }

/-- A provider state with no socket and a previously recorded action. -/
def egNoSocketClient : InstanceWsContext.ClientModel :=
  { InstanceWsContext.initClient with lastAction := "previous_action" }

/-- A provider state whose log list is exactly at capacity. -/
def egFullLogsClient : InstanceWsContext.ClientModel :=
  { InstanceWsContext.initClient with logs := List.replicate 1000 (Json.num 0) }

/-- A hook state whose socket is still connecting. -/
def egConnectingHook : UseInstanceWs.HookModel :=
  { UseInstanceWs.initHook with
      wsRef := some { readyState := ReadyState.CONNECTING, onCloseAttached := true } }

/-- A hook state whose log list is exactly at capacity. -/
def egFullLogsHook : UseInstanceWs.HookModel :=
  { UseInstanceWs.initHook with logs := List.replicate 500 (Json.num 0) }

/-- A cached state snapshot as pushed by an agent while online. -/
def egSnap : Json :=
  Json.obj
    [("status", Json.str "online"),
     ("current_video", Json.str "episode-12.mp4"),
     ("current_playlist", Json.str "main-rotation"),
     ("uptime_seconds", Json.num 42),
     ("current_category",
       Json.obj [("twitch", Json.str "Always On"), ("kick", Json.str "IRL")])]

/-- A DB instance record with denormalized display-cache fields. -/
def egInstance : DashboardPage.Instance :=
  { status := "online"
    current_video := some "db-video.mp4"
    current_playlist := some "db-playlist"
    current_category := some "db-category"
    obs_connected := true
    uptime_seconds := 7 }

-- ── Helper lemmas ────────────────────────────────────────────────────────

theorem lookupField_filter_append_self (fs : List (String × Json)) (k : String) (v : Json) :
    lookupField ((fs.filter (fun p => p.1 ≠ k)) ++ [(k, v)]) k = some v := by
  induction fs with
  | nil => simp [lookupField]
  | cons p rest ih =>
    rw [List.filter_cons]
    by_cases hp : p.1 = k
    · rw [if_neg (by simp [hp])]
      exact ih
    · rw [if_pos (by simp [hp]), List.cons_append]
      simp only [lookupField]
      rw [if_neg hp]
      exact ih

theorem lookupField_filter_append_ne (fs : List (String × Json)) (k k' : String) (v : Json)
    (h : k' ≠ k) :
    lookupField ((fs.filter (fun p => p.1 ≠ k)) ++ [(k, v)]) k' = lookupField fs k' := by
  induction fs with
  | nil =>
    simp only [List.filter_nil, List.nil_append, lookupField]
    rw [if_neg (Ne.symm h)]
  | cons p rest ih =>
    rw [List.filter_cons]
    by_cases hp : p.1 = k
    · rw [if_neg (by simp [hp]), ih]
      simp only [lookupField]
      rw [if_neg (by rw [hp]; exact Ne.symm h)]
    · rw [if_pos (by simp [hp]), List.cons_append]
      simp only [lookupField]
      by_cases hk : p.1 = k'
      · rw [if_pos hk, if_pos hk]
      · rw [if_neg hk, if_neg hk]
        exact ih

theorem getField_setField_self (j : Json) (k : String) (v : Json) :
    (Json.setField j k v).getField k = some v := by
  cases j with
  | obj fs =>
    simp only [Json.setField, Json.getField]
    exact lookupField_filter_append_self fs k v
  | null => simp [Json.setField, Json.getField, lookupField]
  | bool b => simp [Json.setField, Json.getField, lookupField]
  | num n => simp [Json.setField, Json.getField, lookupField]
  | str s => simp [Json.setField, Json.getField, lookupField]
  | arr xs => simp [Json.setField, Json.getField, lookupField]

theorem getField_setField_ne (j : Json) (k k' : String) (v : Json) (h : k' ≠ k) :
    (Json.setField j k v).getField k' = j.getField k' := by
  cases j with
  | obj fs =>
    simp only [Json.setField, Json.getField]
    exact lookupField_filter_append_ne fs k k' v h
  | null => simp [Json.setField, Json.getField, lookupField, Ne.symm h]
  | bool b => simp [Json.setField, Json.getField, lookupField, Ne.symm h]
  | num n => simp [Json.setField, Json.getField, lookupField, Ne.symm h]
  | str s => simp [Json.setField, Json.getField, lookupField, Ne.symm h]
  | arr xs => simp [Json.setField, Json.getField, lookupField, Ne.symm h]

theorem take_length_cons_dropLast {α : Type} (e : α) (l : List α) (h : 0 < l.length) :
    List.take l.length (e :: l) = e :: l.dropLast := by
  cases l with
  | nil => simp at h
  | cons a t =>
    rw [List.length_cons, List.take_succ_cons, List.dropLast_eq_take]
    simp

namespace InstanceWsContext

theorem onmessage_state_frame (c : ClientModel) (d : Json) :
    onmessage c (some (mkFrame "state" d)) = { c with state := some d } := by
  simp [onmessage, mkFrame, Json.getField, lookupField]

theorem onmessage_log_frame (c : ClientModel) (e : Json) :
    onmessage c (some (mkFrame "log" e)) = { c with logs := List.take 1000 (e :: c.logs) } := by
  simp [onmessage, mkFrame, Json.getField, lookupField]

theorem onmessage_log_history_arr (c : ClientModel) (xs : List Json) :
    onmessage c (some (mkFrame "log_history" (Json.arr xs)))
      = { c with logs := List.take 1000 (c.logs ++ xs.reverse) } := by
  simp [onmessage, mkFrame, Json.getField, lookupField]

theorem onmessage_log_history_nonarr (c : ClientModel) (d : Json)
    (hd : ∀ ys : List Json, d ≠ Json.arr ys) :
    onmessage c (some (mkFrame "log_history" d))
      = { c with logs := List.take 1000 c.logs } := by
  cases d with
  | arr ys => exact absurd rfl (hd ys)
  | null => simp [onmessage, mkFrame, Json.getField, lookupField]
  | bool b => simp [onmessage, mkFrame, Json.getField, lookupField]
  | num n => simp [onmessage, mkFrame, Json.getField, lookupField]
  | str s => simp [onmessage, mkFrame, Json.getField, lookupField]
  | obj fs => simp [onmessage, mkFrame, Json.getField, lookupField]

theorem onmessage_command_ack_frame (c : ClientModel) (dd : Json) :
    onmessage c (some (mkFrame "command_ack" dd))
      = { c with lastAck := some (ackDelivered (some dd), c.lastAction) } := by
  simp [onmessage, mkFrame, Json.getField, lookupField]

theorem onmessage_wsRef_unchanged (c : ClientModel) (raw : Option Json) :
    (onmessage c raw).wsRef = c.wsRef := by
  unfold onmessage
  repeat' split
  all_goals rfl

theorem onmessage_logs_length_le (c : ClientModel) (raw : Option Json)
    (h : c.logs.length ≤ 1000) : (onmessage c raw).logs.length ≤ 1000 := by
  unfold onmessage
  repeat' split
  all_goals try exact h
  all_goals simp [List.length_take]

theorem sendCommand_fst_logs (c : ClientModel) (a : String) (p : Json) :
    (sendCommand c a p).1.logs = c.logs := by
  unfold sendCommand
  repeat' split
  all_goals rfl

theorem instanceIdEffect_fst_logs (c : ClientModel) (instId : Option String) (tok : Bool) :
    (instanceIdEffect c instId tok).1.logs = [] := by
  unfold instanceIdEffect connectWs
  repeat' split
  all_goals rfl

theorem reconnectTimerFire_logs (c : ClientModel) (id : String) (tok : Bool) :
    (reconnectTimerFire c id tok).logs = c.logs := by
  unfold reconnectTimerFire connectWs
  repeat' split
  all_goals rfl

theorem onclose_logs (c : ClientModel) (code : Nat) :
    (onclose c code).logs = c.logs := by
  unfold onclose
  split
  all_goals rfl

theorem clientStep_logs_length_le {c c' : ClientModel} (st : ClientStep c c')
    (h : c.logs.length ≤ 1000) : c'.logs.length ≤ 1000 := by
  cases st with
  | opened => exact h
  | message raw => exact onmessage_logs_length_le _ raw h
  | closing code => rw [onclose_logs]; exact h
  | timer id tok => rw [reconnectTimerFire_logs]; exact h
  | send a p => rw [sendCommand_fst_logs]; exact h
  | switch instId tok => rw [instanceIdEffect_fst_logs]; simp

theorem reachableClient_logs_length_le {c : ClientModel} (h : ReachableClient c) :
    c.logs.length ≤ 1000 := by
  induction h with
  | init => simp [initClient]
  | step _ st ih => exact clientStep_logs_length_le st ih

end InstanceWsContext

namespace UseInstanceWs

theorem hook_onmessage_log_frame (hm : HookModel) (e : Json) :
    onmessage hm (some (mkFrame "log" e)) = { hm with logs := List.take 500 (e :: hm.logs) } := by
  simp [onmessage, mkFrame, Json.getField, lookupField]

theorem hook_onmessage_wsRef_unchanged (hm : HookModel) (raw : Option Json) :
    (onmessage hm raw).wsRef = hm.wsRef := by
  unfold onmessage
  repeat' split
  all_goals rfl

theorem hook_onmessage_logs_length_le (hm : HookModel) (raw : Option Json)
    (h : hm.logs.length ≤ 500) : (onmessage hm raw).logs.length ≤ 500 := by
  unfold onmessage
  repeat' split
  all_goals try exact h
  all_goals simp [List.length_take]

theorem hook_sendCommand_fst_logs (hm : HookModel) (a : String) (p : Json) :
    (sendCommand hm a p).1.logs = hm.logs := by
  unfold sendCommand
  repeat' split
  all_goals rfl

theorem connectWs_logs (hm : HookModel) (id : String) (tok : Bool) :
    (connectWs hm id tok).logs = hm.logs := by
  unfold connectWs
  split
  all_goals rfl

theorem hookStep_logs_length_le {hm hm' : HookModel} (st : HookStep hm hm')
    (h : hm.logs.length ≤ 500) : hm'.logs.length ≤ 500 := by
  cases st with
  | connect id tok => rw [connectWs_logs]; exact h
  | opened => exact h
  | message raw => exact hook_onmessage_logs_length_le _ raw h
  | closing code => exact h
  | send a p => rw [hook_sendCommand_fst_logs]; exact h

theorem reachableHook_logs_length_le {hm : HookModel} (h : ReachableHook hm) :
    hm.logs.length ≤ 500 := by
  induction h with
  | init => simp [initHook]
  | step _ st ih => exact hookStep_logs_length_le st ih

end UseInstanceWs

-- ── Claim theorems ───────────────────────────────────────────────────────

/-- C1: after every closure whose close code is not an auth/authorization
rejection (4001/4003/4004), exactly one reconnect is scheduled after the
current backoff delay; the delay starts at the base 2000 ms for a fresh
connection, is doubled (capped at 30000 ms) when the scheduled attempt
fires, and is reset to the base whenever a connection opens successfully;
after a closure with an auth close code no reconnect is scheduled. -/
theorem reconnect_backoff_policy :
    (∀ (c : InstanceWsContext.ClientModel) (code : Nat),
        c.pendingReconnect = none →
        code ≠ 4001 → code ≠ 4003 → code ≠ 4004 →
        (InstanceWsContext.onclose c code).pendingReconnect = some c.reconnectDelay)
    ∧ (∀ (c : InstanceWsContext.ClientModel) (code : Nat),
        c.pendingReconnect = none →
        (code = 4001 ∨ code = 4003 ∨ code = 4004) →
        (InstanceWsContext.onclose c code).pendingReconnect = none)
    ∧ InstanceWsContext.initClient.reconnectDelay = InstanceWsContext.RECONNECT_BASE_MS
    ∧ (∀ (c : InstanceWsContext.ClientModel) (id : String) (tok : Bool),
        (InstanceWsContext.instanceIdEffect c (some id) tok).1.reconnectDelay
          = InstanceWsContext.RECONNECT_BASE_MS)
    ∧ (∀ (c : InstanceWsContext.ClientModel) (d : Nat) (id : String) (tok : Bool),
        c.pendingReconnect = some d →
        (InstanceWsContext.reconnectTimerFire c id tok).reconnectDelay
            = min (d * 2) InstanceWsContext.RECONNECT_MAX_MS
          ∧ (InstanceWsContext.reconnectTimerFire c id tok).pendingReconnect = none)
    ∧ (∀ c : InstanceWsContext.ClientModel,
        (InstanceWsContext.onopen c).reconnectDelay = InstanceWsContext.RECONNECT_BASE_MS)
    ∧ InstanceWsContext.RECONNECT_BASE_MS = 2000
    ∧ InstanceWsContext.RECONNECT_MAX_MS = 30000 := by
  refine ⟨?_, ?_, rfl, ?_, ?_, fun c => rfl, rfl, rfl⟩
  · intro c code _ h1 h2 h3
    simp [InstanceWsContext.onclose, h1, h2, h3]
  · intro c code h hcode
    rcases hcode with rfl | rfl | rfl <;> simp [InstanceWsContext.onclose, h]
  · intro c id tok
    cases tok <;> simp [InstanceWsContext.instanceIdEffect, InstanceWsContext.connectWs]
  · intro c d id tok h
    cases tok <;>
      simp [InstanceWsContext.reconnectTimerFire, h, InstanceWsContext.connectWs]

/-- Witness for C1 at concrete inputs: a transient close (1006) schedules a
reconnect at the current delay, an auth close (4001) schedules none, and
the fired timer doubles the delay. -/
theorem reconnect_backoff_policy_witness :
    (InstanceWsContext.onclose InstanceWsContext.initClient 1006).pendingReconnect
        = some InstanceWsContext.initClient.reconnectDelay
    ∧ (InstanceWsContext.onclose InstanceWsContext.initClient 4001).pendingReconnect = none
    ∧ (InstanceWsContext.reconnectTimerFire
          (InstanceWsContext.onclose InstanceWsContext.initClient 1006)
          "i1" true).reconnectDelay
        = min (2000 * 2) InstanceWsContext.RECONNECT_MAX_MS := by
  obtain ⟨h1, h2, -, -, h5, -, -, -⟩ := reconnect_backoff_policy
  exact ⟨h1 _ 1006 rfl (by decide) (by decide) (by decide),
         h2 _ 4001 rfl (Or.inl rfl),
         (h5 (InstanceWsContext.onclose InstanceWsContext.initClient 1006)
            2000 "i1" true rfl).1⟩

/-- C2: reconnection is suppressed exactly when the close code is one of the
reserved non-retryable codes 4001 (invalid/expired credential), 4003
(forbidden instance), 4004 (instance not found); a closure with any other
close code schedules a reconnection attempt with the current backoff delay. -/
theorem reconnect_suppressed_iff_auth_close_code
    (c : InstanceWsContext.ClientModel) (code : Nat)
    (hnone : c.pendingReconnect = none) :
    ((InstanceWsContext.onclose c code).pendingReconnect = none
        ↔ (code = 4001 ∨ code = 4003 ∨ code = 4004))
    ∧ ((InstanceWsContext.onclose c code).pendingReconnect = some c.reconnectDelay
        ↔ ¬(code = 4001 ∨ code = 4003 ∨ code = 4004)) := by
  by_cases h : code = 4001 ∨ code = 4003 ∨ code = 4004
  · rcases h with rfl | rfl | rfl <;> simp [InstanceWsContext.onclose, hnone]
  · push_neg at h
    obtain ⟨h1, h2, h3⟩ := h
    simp [InstanceWsContext.onclose, h1, h2, h3]

/-- Witness for C2 at concrete close codes 4003 and 1006. -/
theorem reconnect_suppressed_iff_auth_close_code_witness :
    (InstanceWsContext.onclose InstanceWsContext.initClient 4003).pendingReconnect = none
    ∧ (InstanceWsContext.onclose InstanceWsContext.initClient 1006).pendingReconnect
        = some InstanceWsContext.initClient.reconnectDelay := by
  refine ⟨?_, ?_⟩
  · exact (reconnect_suppressed_iff_auth_close_code InstanceWsContext.initClient 4003
      rfl).1.mpr (Or.inr (Or.inl rfl))
  · exact (reconnect_suppressed_iff_auth_close_code InstanceWsContext.initClient 1006
      rfl).2.mpr (by decide)

/-- C3: every `log` frame prepends the entry as the newest element of the
bounded log list; in every reachable state the list never exceeds its
capacity (1000 in the shared provider, 500 in the standalone hook); and at
capacity adding a new entry evicts exactly the oldest entry (the last, in
newest-first display order). -/
theorem log_buffer_bounded_and_evicts_oldest :
    (∀ c : InstanceWsContext.ClientModel, InstanceWsContext.ReachableClient c →
        c.logs.length ≤ 1000)
    ∧ (∀ (c : InstanceWsContext.ClientModel) (e : Json),
        (InstanceWsContext.onmessage c (some (mkFrame "log" e))).logs
          = List.take 1000 (e :: c.logs))
    ∧ (∀ (c : InstanceWsContext.ClientModel) (e : Json),
        ((InstanceWsContext.onmessage c (some (mkFrame "log" e))).logs).head? = some e)
    ∧ (∀ (c : InstanceWsContext.ClientModel) (e : Json), c.logs.length = 1000 →
        (InstanceWsContext.onmessage c (some (mkFrame "log" e))).logs
          = e :: c.logs.dropLast)
    ∧ (∀ hm : UseInstanceWs.HookModel, UseInstanceWs.ReachableHook hm →
        hm.logs.length ≤ 500)
    ∧ (∀ (hm : UseInstanceWs.HookModel) (e : Json),
        (UseInstanceWs.onmessage hm (some (mkFrame "log" e))).logs
          = List.take 500 (e :: hm.logs))
    ∧ (∀ (hm : UseInstanceWs.HookModel) (e : Json), hm.logs.length = 500 →
        (UseInstanceWs.onmessage hm (some (mkFrame "log" e))).logs
          = e :: hm.logs.dropLast) := by
  refine ⟨fun c h => InstanceWsContext.reachableClient_logs_length_le h,
          fun c e => by rw [InstanceWsContext.onmessage_log_frame],
          fun c e => by rw [InstanceWsContext.onmessage_log_frame]; rfl,
          ?_,
          fun hm h => UseInstanceWs.reachableHook_logs_length_le h,
          fun hm e => by rw [UseInstanceWs.hook_onmessage_log_frame],
          ?_⟩
  · intro c e h
    rw [InstanceWsContext.onmessage_log_frame]
    show List.take 1000 (e :: c.logs) = e :: c.logs.dropLast
    rw [← h, take_length_cons_dropLast e c.logs (by rw [h]; norm_num)]
  · intro hm e h
    rw [UseInstanceWs.hook_onmessage_log_frame]
    show List.take 500 (e :: hm.logs) = e :: hm.logs.dropLast
    rw [← h, take_length_cons_dropLast e hm.logs (by rw [h]; norm_num)]

/-- Witness for C3: the initial states are reachable and within capacity,
and at-capacity log lists evict their oldest entry. -/
theorem log_buffer_bounded_and_evicts_oldest_witness :
    InstanceWsContext.initClient.logs.length ≤ 1000
    ∧ (InstanceWsContext.onmessage egFullLogsClient (some (mkFrame "log" (Json.num 7)))).logs
        = Json.num 7 :: egFullLogsClient.logs.dropLast
    ∧ UseInstanceWs.initHook.logs.length ≤ 500
    ∧ (UseInstanceWs.onmessage egFullLogsHook (some (mkFrame "log" (Json.num 7)))).logs
        = Json.num 7 :: egFullLogsHook.logs.dropLast := by
  obtain ⟨hb, -, -, hev, hhb, -, hhev⟩ := log_buffer_bounded_and_evicts_oldest
  exact ⟨hb _ InstanceWsContext.ReachableClient.init,
         hev egFullLogsClient (Json.num 7)
           (by show (List.replicate 1000 (Json.num 0)).length = 1000
               rw [List.length_replicate]),
         hhb _ UseInstanceWs.ReachableHook.init,
         hhev egFullLogsHook (Json.num 7)
           (by show (List.replicate 500 (Json.num 0)).length = 500
               rw [List.length_replicate])⟩

/-- C4: a `log_history` frame carrying an array batch (oldest-first) yields
the previously held live entries followed by the batch reversed into
newest-first order, truncated to the capacity 1000; a `log_history` frame
whose data is not an array acts as an empty batch and leaves the
(within-capacity) live entries unchanged. -/
theorem log_history_merge (c : InstanceWsContext.ClientModel) (xs : List Json) (d : Json)
    (hd : ∀ ys : List Json, d ≠ Json.arr ys) (hlen : c.logs.length ≤ 1000) :
    (InstanceWsContext.onmessage c (some (mkFrame "log_history" (Json.arr xs)))).logs
        = List.take 1000 (c.logs ++ xs.reverse)
    ∧ (InstanceWsContext.onmessage c (some (mkFrame "log_history" d))).logs = c.logs := by
  constructor
  · rw [InstanceWsContext.onmessage_log_history_arr]
  · rw [InstanceWsContext.onmessage_log_history_nonarr c d hd]
    show List.take 1000 c.logs = c.logs
    exact List.take_of_length_le hlen

/-- Witness for C4: a two-entry history batch is merged reversed beneath the
live entries, and a `null` data payload leaves the log list unchanged. -/
theorem log_history_merge_witness :
    (InstanceWsContext.onmessage InstanceWsContext.initClient
        (some (mkFrame "log_history" (Json.arr [Json.num 1, Json.num 2])))).logs
      = List.take 1000 (InstanceWsContext.initClient.logs ++ [Json.num 1, Json.num 2].reverse)
    ∧ (InstanceWsContext.onmessage InstanceWsContext.initClient
        (some (mkFrame "log_history" Json.null))).logs
      = InstanceWsContext.initClient.logs :=
  log_history_merge InstanceWsContext.initClient [Json.num 1, Json.num 2] Json.null
    (fun _ h => Json.noConfusion h) (by simp [InstanceWsContext.initClient])

/-- C5: a frame whose payload fails JSON parsing leaves the entire client
state unchanged (cached state, log list, connected flag, last
acknowledgement), and the message handler never touches the socket
reference on any frame, so a malformed frame never closes the connection
(both provider and hook). -/
theorem malformed_frame_is_noop :
    (∀ c : InstanceWsContext.ClientModel, InstanceWsContext.onmessage c none = c)
    ∧ (∀ (c : InstanceWsContext.ClientModel) (raw : Option Json),
        (InstanceWsContext.onmessage c raw).wsRef = c.wsRef)
    ∧ (∀ hm : UseInstanceWs.HookModel, UseInstanceWs.onmessage hm none = hm)
    ∧ (∀ (hm : UseInstanceWs.HookModel) (raw : Option Json),
        (UseInstanceWs.onmessage hm raw).wsRef = hm.wsRef) :=
  ⟨fun _ => rfl, InstanceWsContext.onmessage_wsRef_unchanged,
   fun _ => rfl, UseInstanceWs.hook_onmessage_wsRef_unchanged⟩

theorem sendCommand_open_eq (c : InstanceWsContext.ClientModel) (s : Socket)
    (hws : c.wsRef = some s) (hopen : s.readyState = ReadyState.OPEN)
    (a : String) (p : Json) :
    InstanceWsContext.sendCommand c a p
      = ({ c with lastAction := a },
         some (Json.obj
           [("type", Json.str "command"),
            ("data", Json.obj [("action", Json.str a), ("payload", p)])])) := by
  simp [InstanceWsContext.sendCommand, hws, hopen]

/-- C6 counterexample: a call to `sendCommand` made while no socket is
attached returns before touching the last-action slot, so "every call to
sendCommand overwrites the single last-action slot with the new action"
fails as stated. -/
theorem sendCommand_without_socket_keeps_old_action :
    (InstanceWsContext.sendCommand egNoSocketClient "skip_video" (Json.obj [])).1.lastAction
      ≠ "skip_video"
    ∧ (InstanceWsContext.sendCommand egNoSocketClient "skip_video" (Json.obj [])).1.lastAction
      = "previous_action" :=
  ⟨by decide, rfl⟩

/-- C6 (amended): while the WebSocket is attached and OPEN, every call to
sendCommand overwrites the single last-action slot with the new action, and
a later `command_ack` frame is attributed to the action of the most
recently sent command — for two commands sent before the first
acknowledgement arrives, the acknowledgement records the second action. -/
theorem ack_attributed_to_latest_command
    (c : InstanceWsContext.ClientModel) (s : Socket)
    (hws : c.wsRef = some s) (hopen : s.readyState = ReadyState.OPEN)
    (a1 a2 : String) (p1 p2 : Json) (dd : Json) :
    (InstanceWsContext.sendCommand c a1 p1).1.lastAction = a1
    ∧ (InstanceWsContext.sendCommand
        (InstanceWsContext.sendCommand c a1 p1).1 a2 p2).1.lastAction = a2
    ∧ (InstanceWsContext.onmessage
        (InstanceWsContext.sendCommand
          (InstanceWsContext.sendCommand c a1 p1).1 a2 p2).1
        (some (mkFrame "command_ack" dd))).lastAck
      = some (ackDelivered (some dd), a2) := by
  have h1 := sendCommand_open_eq c s hws hopen a1 p1
  have hws1 : ({ c with lastAction := a1 } : InstanceWsContext.ClientModel).wsRef = some s := hws
  have h2 := sendCommand_open_eq _ s hws1 hopen a2 p2
  refine ⟨by rw [h1], ?_, ?_⟩
  · rw [h1]
    show (InstanceWsContext.sendCommand { c with lastAction := a1 } a2 p2).1.lastAction = a2
    rw [h2]
  · rw [h1]
    show (InstanceWsContext.onmessage
        (InstanceWsContext.sendCommand { c with lastAction := a1 } a2 p2).1
        (some (mkFrame "command_ack" dd))).lastAck
      = some (ackDelivered (some dd), a2)
    rw [h2]
    show (InstanceWsContext.onmessage { c with lastAction := a2 }
        (some (mkFrame "command_ack" dd))).lastAck
      = some (ackDelivered (some dd), a2)
    rw [InstanceWsContext.onmessage_command_ack_frame]

/-- Witness for C6 (amended) on an open socket with two concrete commands. -/
theorem ack_attributed_to_latest_command_witness :
    (InstanceWsContext.sendCommand egOpenClient "pause_stream" (Json.obj [])).1.lastAction
      = "pause_stream"
    ∧ (InstanceWsContext.sendCommand
        (InstanceWsContext.sendCommand egOpenClient "pause_stream" (Json.obj [])).1
        "skip_video" (Json.obj [])).1.lastAction = "skip_video"
    ∧ (InstanceWsContext.onmessage
        (InstanceWsContext.sendCommand
          (InstanceWsContext.sendCommand egOpenClient "pause_stream" (Json.obj [])).1
          "skip_video" (Json.obj [])).1
        (some (mkFrame "command_ack" (Json.obj [("delivered", Json.bool true)])))).lastAck
      = some (ackDelivered (some (Json.obj [("delivered", Json.bool true)])), "skip_video") :=
  ack_attributed_to_latest_command egOpenClient
    { readyState := ReadyState.OPEN, onCloseAttached := true } rfl rfl
    "pause_stream" "skip_video" (Json.obj []) (Json.obj [])
    (Json.obj [("delivered", Json.bool true)])

/-- C7: after the upstream closes (or while none is attached), the offline
status the server layers over the cached snapshot, together with the
persisted offline DB status, makes the dashboard merge show the instance
offline — while the cached snapshot fields (current video, playlist,
category, uptime) remain readable as stale-but-displayable data; with no
live state at all the DB display cache still shows through. -/
theorem offline_layering_preserves_cached_fields
    (snap : Json) (inst : DashboardPage.Instance)
    (v pl tw kc dbv : String) (upt : Int)
    (hv : snap.getField "current_video" = some (Json.str v))
    (hp : snap.getField "current_playlist" = some (Json.str pl))
    (hu : snap.getField "uptime_seconds" = some (Json.num upt))
    (hcat : snap.getField "current_category"
      = some (Json.obj [("twitch", Json.str tw), ("kick", Json.str kc)]))
    (htw : tw ≠ "")
    (hdbv : inst.current_video = some dbv) :
    DashboardPage.isOnline (some (RelayServer.layerOfflineStatus snap))
        (some (RelayServer.markOffline inst)) = false
    ∧ DashboardPage.isPaused (some (RelayServer.layerOfflineStatus snap))
        (some (RelayServer.markOffline inst)) = false
    ∧ DashboardPage.currentVideo (some (RelayServer.layerOfflineStatus snap))
        (some (RelayServer.markOffline inst)) = Json.str v
    ∧ DashboardPage.currentPlaylist (some (RelayServer.layerOfflineStatus snap))
        (some (RelayServer.markOffline inst)) = Json.str pl
    ∧ DashboardPage.uptimeSeconds (some (RelayServer.layerOfflineStatus snap))
        (some (RelayServer.markOffline inst)) = Json.num upt
    ∧ DashboardPage.currentCategory (some (RelayServer.layerOfflineStatus snap))
        (some (RelayServer.markOffline inst)) = Json.str tw
    ∧ DashboardPage.isOnline none (some (RelayServer.markOffline inst)) = false
    ∧ DashboardPage.currentVideo none (some (RelayServer.markOffline inst))
        = Json.str dbv := by
  have hstat : (RelayServer.layerOfflineStatus snap).getField "status"
      = some (Json.str "offline") := getField_setField_self snap "status" (Json.str "offline")
  have hv' : (RelayServer.layerOfflineStatus snap).getField "current_video"
      = some (Json.str v) := by
    rw [RelayServer.layerOfflineStatus, getField_setField_ne snap _ _ _ (by decide)]
    exact hv
  have hp' : (RelayServer.layerOfflineStatus snap).getField "current_playlist"
      = some (Json.str pl) := by
    rw [RelayServer.layerOfflineStatus, getField_setField_ne snap _ _ _ (by decide)]
    exact hp
  have hu' : (RelayServer.layerOfflineStatus snap).getField "uptime_seconds"
      = some (Json.num upt) := by
    rw [RelayServer.layerOfflineStatus, getField_setField_ne snap _ _ _ (by decide)]
    exact hu
  have hcat' : (RelayServer.layerOfflineStatus snap).getField "current_category"
      = some (Json.obj [("twitch", Json.str tw), ("kick", Json.str kc)]) := by
    rw [RelayServer.layerOfflineStatus, getField_setField_ne snap _ _ _ (by decide)]
    exact hcat
  refine ⟨?_, ?_, ?_, ?_, ?_, ?_, ?_, ?_⟩
  · simp [DashboardPage.isOnline, jsGet, hstat, RelayServer.markOffline]
  · simp [DashboardPage.isPaused, jsGet, hstat, RelayServer.markOffline]
  · simp [DashboardPage.currentVideo, jsGet, hv', jsNullishOr, jsNullishGetD]
  · simp [DashboardPage.currentPlaylist, jsGet, hp', jsNullishOr, jsNullishGetD]
  · simp [DashboardPage.uptimeSeconds, jsGet, hu', jsNullishOr, jsNullishGetD]
  · have hj : jsGet (some (RelayServer.layerOfflineStatus snap)) "current_category"
        = some (Json.obj [("twitch", Json.str tw), ("kick", Json.str kc)]) := by
      simp [jsGet, hcat']
    simp [DashboardPage.currentCategory, hj, jsNullishOr, jsTruthy,
      Json.getField, lookupField, htw]
  · simp [DashboardPage.isOnline, jsGet, RelayServer.markOffline]
  · simp [DashboardPage.currentVideo, jsGet, jsNullishOr, jsNullishGetD,
      RelayServer.markOffline, hdbv, DashboardPage.optStrJson]

/-- Witness for C7 on a concrete online snapshot and DB record. -/
theorem offline_layering_preserves_cached_fields_witness :
    DashboardPage.isOnline (some (RelayServer.layerOfflineStatus egSnap))
        (some (RelayServer.markOffline egInstance)) = false
    ∧ DashboardPage.currentVideo (some (RelayServer.layerOfflineStatus egSnap))
        (some (RelayServer.markOffline egInstance)) = Json.str "episode-12.mp4"
    ∧ DashboardPage.currentCategory (some (RelayServer.layerOfflineStatus egSnap))
        (some (RelayServer.markOffline egInstance)) = Json.str "Always On"
    ∧ DashboardPage.currentVideo none (some (RelayServer.markOffline egInstance))
        = Json.str "db-video.mp4" := by
  obtain ⟨h1, -, h3, -, -, h6, -, h8⟩ :=
    offline_layering_preserves_cached_fields egSnap egInstance
      "episode-12.mp4" "main-rotation" "Always On" "IRL" "db-video.mp4" 42
      rfl rfl rfl rfl (by decide) rfl
  exact ⟨h1, h3, h6, h8⟩

/-- C8: a `state` frame replaces the cached snapshot wholesale: the new
snapshot is exactly the frame's data, every field read from it comes from
the frame's data alone, and the result is independent of whatever snapshot
was held before — no field of an older snapshot survives. -/
theorem state_frame_replaces_snapshot_wholesale :
    (∀ (c : InstanceWsContext.ClientModel) (d : Json),
        (InstanceWsContext.onmessage c (some (mkFrame "state" d))).state = some d)
    ∧ (∀ (c : InstanceWsContext.ClientModel) (d : Json) (k : String),
        jsGet (InstanceWsContext.onmessage c (some (mkFrame "state" d))).state k
          = d.getField k)
    ∧ (∀ (c c' : InstanceWsContext.ClientModel) (d : Json),
        (InstanceWsContext.onmessage c (some (mkFrame "state" d))).state
          = (InstanceWsContext.onmessage c' (some (mkFrame "state" d))).state) := by
  refine ⟨?_, ?_, ?_⟩
  · intro c d
    rw [InstanceWsContext.onmessage_state_frame]
  · intro c d k
    rw [InstanceWsContext.onmessage_state_frame]
    simp [jsGet]
  · intro c c' d
    rw [InstanceWsContext.onmessage_state_frame, InstanceWsContext.onmessage_state_frame]

/-- C9: calling sendCommand while no socket is attached or the socket is not
in the OPEN ready state is a complete no-op — the client state (including
the last-action slot) is returned unchanged and no `command` frame is sent,
in both the shared provider and the standalone hook. -/
theorem sendCommand_noop_when_socket_not_open
    (c : InstanceWsContext.ClientModel) (hm : UseInstanceWs.HookModel)
    (a : String) (p : Json)
    (hc : ∀ s : Socket, c.wsRef = some s → s.readyState ≠ ReadyState.OPEN)
    (hh : ∀ s : Socket, hm.wsRef = some s → s.readyState ≠ ReadyState.OPEN) :
    InstanceWsContext.sendCommand c a p = (c, none)
    ∧ UseInstanceWs.sendCommand hm a p = (hm, none) := by
  constructor
  · rcases hws : c.wsRef with _ | s
    · simp [InstanceWsContext.sendCommand, hws]
    · simp [InstanceWsContext.sendCommand, hws, hc s hws]
  · rcases hws : hm.wsRef with _ | s
    · simp [UseInstanceWs.sendCommand, hws]
    · simp [UseInstanceWs.sendCommand, hws, hh s hws]

/-- Witness for C9: a provider with no socket and a hook whose socket is
still CONNECTING both drop the command unchanged. -/
theorem sendCommand_noop_when_socket_not_open_witness :
    InstanceWsContext.sendCommand InstanceWsContext.initClient "skip_video" (Json.obj [])
        = (InstanceWsContext.initClient, none)
    ∧ UseInstanceWs.sendCommand egConnectingHook "skip_video" (Json.obj [])
        = (egConnectingHook, none) :=
  sendCommand_noop_when_socket_not_open InstanceWsContext.initClient egConnectingHook
    "skip_video" (Json.obj [])
    (fun s hs => by simp [InstanceWsContext.initClient] at hs)
    (fun s hs => by
      simp [egConnectingHook, UseInstanceWs.initHook] at hs
      rw [← hs]
      decide)

/-- C10: changing the active instance clears every piece of cached data of
the previous instance (state snapshot, log list, connected flag, last
acknowledgement), cancels any pending reconnect timer, and closes the old
socket with its onclose handler detached — so a close event on the old
socket has no effect on the client and no reconnect fires for it. -/
theorem instance_switch_clears_previous_instance_data
    (c : InstanceWsContext.ClientModel) (instId : Option String) (tok : Bool) :
    (InstanceWsContext.instanceIdEffect c instId tok).1.state = none
    ∧ (InstanceWsContext.instanceIdEffect c instId tok).1.logs = []
    ∧ (InstanceWsContext.instanceIdEffect c instId tok).1.connected = false
    ∧ (InstanceWsContext.instanceIdEffect c instId tok).1.lastAck = none
    ∧ (InstanceWsContext.instanceIdEffect c instId tok).1.pendingReconnect = none
    ∧ (∀ s : Socket, (InstanceWsContext.instanceIdEffect c instId tok).2 = some s →
        s.onCloseAttached = false)
    ∧ (∀ (m : InstanceWsContext.ClientModel) (s : Socket) (code : Nat),
        s.onCloseAttached = false →
        InstanceWsContext.socketCloseEffect m s code = m) := by
  refine ⟨?_, ?_, ?_, ?_, ?_, ?_, ?_⟩
  · cases instId <;> cases tok <;>
      simp [InstanceWsContext.instanceIdEffect, InstanceWsContext.connectWs]
  · cases instId <;> cases tok <;>
      simp [InstanceWsContext.instanceIdEffect, InstanceWsContext.connectWs]
  · cases instId <;> cases tok <;>
      simp [InstanceWsContext.instanceIdEffect, InstanceWsContext.connectWs]
  · cases instId <;> cases tok <;>
      simp [InstanceWsContext.instanceIdEffect, InstanceWsContext.connectWs]
  · cases instId <;> cases tok <;>
      simp [InstanceWsContext.instanceIdEffect, InstanceWsContext.connectWs]
  · intro s hs
    rcases hw : c.wsRef with _ | s0
    · simp [InstanceWsContext.instanceIdEffect, hw] at hs
    · simp [InstanceWsContext.instanceIdEffect, hw] at hs
      rw [← hs]
  · intro m s code hdetached
    simp [InstanceWsContext.socketCloseEffect, hdetached]

/-- Witness for C10: switching away from a busy client clears its data, and
a close event on the detached old socket is inert. -/
theorem instance_switch_clears_previous_instance_data_witness :
    (InstanceWsContext.instanceIdEffect egBusyClient (some "other-instance") true).1.state = none
    ∧ (InstanceWsContext.instanceIdEffect egBusyClient (some "other-instance") true).1.logs = []
    ∧ (InstanceWsContext.instanceIdEffect egBusyClient
        (some "other-instance") true).1.pendingReconnect = none
    ∧ InstanceWsContext.socketCloseEffect InstanceWsContext.initClient
        { readyState := ReadyState.CLOSING, onCloseAttached := false } 1006
        = InstanceWsContext.initClient := by
  have h := instance_switch_clears_previous_instance_data egBusyClient (some "other-instance") true
  exact ⟨h.1, h.2.1, h.2.2.2.2.1, h.2.2.2.2.2.2 _ _ 1006 rfl⟩
